import Mathlib

/-!
A shallow embedding of the ResumeBuilder backend (credit ledger, AI
operation pipeline, resume store, token layer) together with theorems
checking the natural-language specification against the code.

Conventions: Python ints are modelled as `Int`; mutation of a `User`
document is modelled by returning the updated record; a Python function
that can raise returns the error value explicitly.  Failure branches that
execute no field assignment before raising return the input record
unchanged, mirroring the absence of mutation in the source.
-/

/-- Subscription tiers (src/database/models.py, SubscriptionType). -/
inductive SubscriptionType
  | trial
  | basic
  | premium
  | pro
  deriving DecidableEq, Repr

/-- The credit- and resume-relevant fields of the User document
(src/database/models.py).  Timestamps and profile fields are not modelled:
no claim mentions them. -/
structure User where
  id : Nat
  subscription_type : SubscriptionType
  credits_remaining : Int
  credits_used : Int
  resume_ids : List Nat
  resume_count : Nat
  deriving DecidableEq, Repr

/-- User.use_credit: deduct `amount` when `credits_remaining >= amount`,
returning a success flag; otherwise change nothing and report failure. -/
def User.use_credit (u : User) (amount : Int) : Bool × User :=
  if amount ≤ u.credits_remaining then
    (true, { u with credits_remaining := u.credits_remaining - amount,
                    credits_used := u.credits_used + amount })
  else
    (false, u)

/-- User.has_credits: `credits_remaining >= amount`. -/
def User.has_credits (u : User) (amount : Int) : Bool :=
  decide (amount ≤ u.credits_remaining)

/-- User.add_credits: unconditionally add to the balance. -/
def User.add_credits (u : User) (amount : Int) : User :=
  { u with credits_remaining := u.credits_remaining + amount }

/-- CreditManager.CREDIT_COSTS (src/services/credit_manager.py). -/
def CREDIT_COSTS (operation : String) : Option Int :=
  match operation with
  | "enhance" => some 1
  | "analyze" => some 2
  | "generate" => some 3
  | "optimize" => some 1
  | _ => none

/-- `CREDIT_COSTS.get(operation, 1)`: unknown kinds default to cost 1. -/
def creditCost (operation : String) : Int :=
  (CREDIT_COSTS operation).getD 1

/-- Payload of the 402 raised on insufficient credits, in the order the
source builds its detail dict: remaining balance, needed cost, tier. -/
structure InsufficientCredits where
  credits_remaining : Int
  credits_needed : Int
  subscription_type : SubscriptionType
  deriving DecidableEq, Repr

/-- Errors raised by CreditManager.check_and_use_credits. -/
inductive CreditError
  | insufficientCredits (info : InsufficientCredits)
  | failedToDeduct
  deriving DecidableEq, Repr

/-- CreditManager.check_and_use_credits.  PRO users only accrue usage and
always succeed; otherwise `has_credits` gates the deduction and failure
raises with the balance, cost and tier.  The pair returns the error (if
any) together with the user record as left by the call. -/
def check_and_use_credits (u : User) (operation : String) :
    Option CreditError × User :=
  let cost := creditCost operation
  if u.subscription_type = SubscriptionType.pro then
    (none, { u with credits_used := u.credits_used + cost })
  else if u.has_credits cost = false then
    (some (.insufficientCredits
      ⟨u.credits_remaining, cost, u.subscription_type⟩), u)
  else
    match u.use_credit cost with
    | (true, updated) => (none, updated)
    | (false, _) => (some .failedToDeduct, u)

/-- CreditManager.refund_credits.  For non-PRO users: add the cost back and
floor `credits_used` at 0.  For PRO users the guard skips the whole body,
so the record is returned untouched. -/
def refund_credits (u : User) (operation : String) : User :=
  let cost := creditCost operation
  if u.subscription_type ≠ SubscriptionType.pro then
    let u1 := u.add_credits cost
    { u1 with credits_used := max 0 (u1.credits_used - cost) }
  else
    u

/-- Every operation kind has cost at least 1 (the four listed costs are
1, 2, 3, 1 and the default is 1). -/
theorem one_le_creditCost (operation : String) : 1 ≤ creditCost operation := by
  unfold creditCost CREDIT_COSTS
  split <;> simp [Option.getD]

/-- Claim C1: for a non-unlimited account, reserve succeeds iff the balance
covers the cost; on success the balance drops and the usage counter rises
by exactly the cost; on failure the error is InsufficientCredits carrying
the balance, cost and tier, and the record is unchanged. -/
theorem C1_reserve_nonpro_spec (u : User) (operation : String)
    (htier : u.subscription_type ≠ SubscriptionType.pro) :
    ((check_and_use_credits u operation).1 = none ↔
      creditCost operation ≤ u.credits_remaining) ∧
    (∀ u', check_and_use_credits u operation = (none, u') →
      u'.credits_remaining = u.credits_remaining - creditCost operation ∧
      u'.credits_used = u.credits_used + creditCost operation) ∧
    (u.credits_remaining < creditCost operation →
      check_and_use_credits u operation =
        (some (.insufficientCredits
          ⟨u.credits_remaining, creditCost operation, u.subscription_type⟩),
         u)) := by
  by_cases h : creditCost operation ≤ u.credits_remaining
  · refine ⟨by simp [check_and_use_credits, User.has_credits, User.use_credit, htier, h], ?_, ?_⟩
    · intro u' hu'
      simp [check_and_use_credits, User.has_credits, User.use_credit, htier, h] at hu'
      subst hu'
      constructor <;> rfl
    · intro hlt
      omega
  · refine ⟨?_, ?_, ?_⟩
    · simp [check_and_use_credits, User.has_credits, User.use_credit, htier, h]
    · intro u' hu'
      simp [check_and_use_credits, User.has_credits, User.use_credit, htier, h] at hu'
    · intro _
      simp [check_and_use_credits, User.has_credits, User.use_credit, htier, h]

/-- Claim C1, witnessed on a concrete Trial user with 10 credits and the
"enhance" operation (cost 1). -/
theorem C1_reserve_nonpro_spec_witness :
    (check_and_use_credits ⟨1, SubscriptionType.trial, 10, 0, [], 0⟩ "enhance").1 = none := by
  exact (C1_reserve_nonpro_spec ⟨1, SubscriptionType.trial, 10, 0, [], 0⟩ "enhance"
    (by decide)).1.mpr (by decide)

/-- Claim C2: for a non-unlimited account with a sufficient balance (and a
non-negative usage counter, as every reachable account state has), a refund
of the same operation kind immediately after a successful reserve restores
both counters to their pre-reserve values. -/
theorem C2_refund_reserve_roundtrip (u : User) (operation : String)
    (htier : u.subscription_type ≠ SubscriptionType.pro)
    (hused : 0 ≤ u.credits_used)
    (hbal : creditCost operation ≤ u.credits_remaining) :
    (refund_credits ((check_and_use_credits u operation).2) operation).credits_remaining =
      u.credits_remaining ∧
    (refund_credits ((check_and_use_credits u operation).2) operation).credits_used =
      u.credits_used := by
  simp [check_and_use_credits, User.has_credits, User.use_credit, htier, hbal,
    refund_credits, User.add_credits]
  omega

/-- Claim C2, witnessed on a concrete Trial user with 10 credits: the
round trip through reserve then refund of "enhance" keeps (10, 0). -/
theorem C2_refund_reserve_roundtrip_witness :
    (refund_credits ((check_and_use_credits ⟨1, SubscriptionType.trial, 10, 0, [], 0⟩ "enhance").2) "enhance").credits_remaining = 10 ∧
    (refund_credits ((check_and_use_credits ⟨1, SubscriptionType.trial, 10, 0, [], 0⟩ "enhance").2) "enhance").credits_used = 0 := by
  exact C2_refund_reserve_roundtrip ⟨1, SubscriptionType.trial, 10, 0, [], 0⟩ "enhance"
    (by decide) (by decide) (by decide)

/-- A ledger call, for the spec's reserve/refund call sequences. -/
inductive LedgerCall
  | reserve (operation : String)
  | refund (operation : String)
  deriving DecidableEq, Repr

/-- Apply one ledger call to a user record. -/
def applyLedgerCall (u : User) (c : LedgerCall) : User :=
  match c with
  | .reserve operation => (check_and_use_credits u operation).2
  | .refund operation => refund_credits u operation

/-- Run a finite sequence of ledger calls, left to right. -/
def runLedgerCalls (u : User) (cs : List LedgerCall) : User :=
  cs.foldl applyLedgerCall u

/-- Neither reserve nor refund ever changes the subscription tier. -/
theorem applyLedgerCall_subscription_type (u : User) (c : LedgerCall) :
    (applyLedgerCall u c).subscription_type = u.subscription_type := by
  cases c with
  | reserve operation =>
    by_cases htier : u.subscription_type = SubscriptionType.pro
    · simp [applyLedgerCall, check_and_use_credits, htier]
    · by_cases h : creditCost operation ≤ u.credits_remaining <;>
        simp [applyLedgerCall, check_and_use_credits, User.has_credits,
          User.use_credit, htier, h]
  | refund operation =>
    by_cases htier : u.subscription_type = SubscriptionType.pro <;>
      simp [applyLedgerCall, refund_credits, User.add_credits, htier]

/-- One ledger call preserves non-negativity of both counters for a
non-unlimited account. -/
theorem applyLedgerCall_nonneg (u : User) (c : LedgerCall)
    (htier : u.subscription_type ≠ SubscriptionType.pro)
    (hrem : 0 ≤ u.credits_remaining) (hused : 0 ≤ u.credits_used) :
    0 ≤ (applyLedgerCall u c).credits_remaining ∧
    0 ≤ (applyLedgerCall u c).credits_used := by
  cases c with
  | reserve operation =>
    have hcost := one_le_creditCost operation
    by_cases h : creditCost operation ≤ u.credits_remaining <;>
      simp [applyLedgerCall, check_and_use_credits, User.has_credits,
        User.use_credit, htier, h] <;> omega
  | refund operation =>
    have hcost := one_le_creditCost operation
    simp [applyLedgerCall, refund_credits, User.add_credits, htier]
    omega

/-- Claim C5: for a non-unlimited account starting with non-negative
counters, no finite sequence of reserve and refund calls can drive
`credits_remaining` (or `credits_used`) negative. -/
theorem C5_counters_never_negative (cs : List LedgerCall) (u : User)
    (htier : u.subscription_type ≠ SubscriptionType.pro)
    (hrem : 0 ≤ u.credits_remaining) (hused : 0 ≤ u.credits_used) :
    0 ≤ (runLedgerCalls u cs).credits_remaining ∧
    0 ≤ (runLedgerCalls u cs).credits_used := by
  induction cs generalizing u with
  | nil => exact ⟨hrem, hused⟩
  | cons c rest ih =>
    have hstep := applyLedgerCall_nonneg u c htier hrem hused
    have htier' : (applyLedgerCall u c).subscription_type ≠ SubscriptionType.pro := by
      rw [applyLedgerCall_subscription_type]
      exact htier
    simpa [runLedgerCalls] using ih (applyLedgerCall u c) htier' hstep.1 hstep.2

/-- Claim C5, witnessed on a concrete Trial user with a single credit and
a sequence mixing refunds and reserves (including an over-refund). -/
theorem C5_counters_never_negative_witness :
    0 ≤ (runLedgerCalls ⟨1, SubscriptionType.trial, 1, 0, [], 0⟩
      [LedgerCall.reserve "enhance", LedgerCall.refund "enhance",
       LedgerCall.refund "enhance", LedgerCall.reserve "analyze",
       LedgerCall.reserve "generate"]).credits_remaining ∧
    0 ≤ (runLedgerCalls ⟨1, SubscriptionType.trial, 1, 0, [], 0⟩
      [LedgerCall.reserve "enhance", LedgerCall.refund "enhance",
       LedgerCall.refund "enhance", LedgerCall.reserve "analyze",
       LedgerCall.reserve "generate"]).credits_used := by
  exact C5_counters_never_negative
    [LedgerCall.reserve "enhance", LedgerCall.refund "enhance",
     LedgerCall.refund "enhance", LedgerCall.reserve "analyze",
     LedgerCall.reserve "generate"]
    ⟨1, SubscriptionType.trial, 1, 0, [], 0⟩ (by decide) (by decide) (by decide)

/-- Claim C7 counterexample: for a PRO user with `credits_used = 50`, a
refund of "enhance" (cost 1) leaves `credits_used` at 50 — the guard in
`refund_credits` skips its whole body for PRO accounts, so the usage
counter is NOT decremented by the cost as the claim states. -/
theorem C7_counterexample :
    (refund_credits ⟨1, SubscriptionType.pro, 5, 50, [], 0⟩ "enhance").credits_used = 50 ∧
    ¬ ((refund_credits ⟨1, SubscriptionType.pro, 5, 50, [], 0⟩ "enhance").credits_used =
        50 - creditCost "enhance") := by
  decide

/-- Claim C7 (amended): for a PRO account, reserve succeeds unconditionally
regardless of the balance, adding the cost to `credits_used` and leaving
`credits_remaining` untouched; refund is a complete no-op, leaving both
counters (and the whole record) unchanged. -/
theorem C7_pro_reserve_refund (u : User) (operation : String)
    (htier : u.subscription_type = SubscriptionType.pro) :
    check_and_use_credits u operation =
      (none, { u with credits_used := u.credits_used + creditCost operation }) ∧
    refund_credits u operation = u := by
  constructor
  · simp [check_and_use_credits, htier]
  · simp [refund_credits, htier]

/-- Claim C7 (amended), witnessed on a PRO user with a zero balance and
`credits_used = 50` reserving "enhance". -/
theorem C7_pro_reserve_refund_witness :
    check_and_use_credits ⟨1, SubscriptionType.pro, 0, 50, [], 0⟩ "enhance" =
      (none, ⟨1, SubscriptionType.pro, 0, 51, [], 0⟩) ∧
    refund_credits ⟨1, SubscriptionType.pro, 0, 50, [], 0⟩ "enhance" =
      ⟨1, SubscriptionType.pro, 0, 50, [], 0⟩ := by
  exact C7_pro_reserve_refund ⟨1, SubscriptionType.pro, 0, 50, [], 0⟩ "enhance" rfl

/-- Python's default `str.strip` whitespace, restricted to the ASCII
whitespace characters (the claims only involve spaces). -/
def pyIsSpace (c : Char) : Bool :=
  c == ' ' || c == '\t' || c == '\n' || c == '\r' || c == '\x0b' || c == '\x0c'

/-- `content.strip()`: drop leading and trailing whitespace. -/
def pyStrip (s : String) : String :=
  String.mk (((s.toList.dropWhile pyIsSpace).reverse.dropWhile pyIsSpace).reverse)

/-- Observable steps of a request, recorded in order. -/
inductive Event
  | authenticated
  | reserveOk
  | reserveFailed
  | refundCalled
  | externalCall
  deriving DecidableEq, Repr

/-- Errors surfaced by the enhance route (src/routes/ai_routes.py):
401 from the bearer dependency, 404 for a missing user, 402 via
`check_and_use_credits`, 400 for empty content, 500 for a wrapped
generator failure. -/
inductive EnhanceError
  | unauthorized
  | userNotFound
  | creditError (e : CreditError)
  | contentRequired
  | enhancementFailed
  deriving DecidableEq, Repr

/-- Outcome of one enhance request: the error (if any), the controller's
(section, original, enhanced) payload on success, the user record after
the request, and the recorded event trace. -/
structure EnhanceResult where
  error : Option EnhanceError
  output : Option (String × String × String)
  user : User
  events : List Event
  deriving DecidableEq, Repr

/-- The enhance_section route (src/routes/ai_routes.py) composed with
AIController.enhance_resume_section.  `tokenValid` stands for the
`get_current_user` bearer dependency, `userFound` for `User.get`, and
`gen` for the Groq generator call: `none` means it raised, `some s` that
it returned `s`.

The generator-failure branch performs NO refund: the controller catches
the generator's exception and raises `HTTPException(500, "Error enhancing
content: ...")`, which the route re-raises via its `except HTTPException:
raise` arm — the refund in the route's `except Exception` arm is
unreachable for a delegation failure. -/
def enhance_section (tokenValid userFound : Bool) (u : User)
    (section_name content : String) (gen : Option String) : EnhanceResult :=
  if tokenValid = false then
    ⟨some .unauthorized, none, u, []⟩
  else if userFound = false then
    ⟨some .userNotFound, none, u, [.authenticated]⟩
  else
    match check_and_use_credits u "enhance" with
    | (some e, u1) =>
      ⟨some (.creditError e), none, u1, [.authenticated, .reserveFailed]⟩
    | (none, u1) =>
      if content = "" || pyStrip content = "" then
        ⟨some .contentRequired, none, refund_credits u1 "enhance",
          [.authenticated, .reserveOk, .refundCalled]⟩
      else
        match gen with
        | none =>
          ⟨some .enhancementFailed, none, u1,
            [.authenticated, .reserveOk, .externalCall]⟩
        | some enhanced =>
          ⟨none, some (section_name, content, enhanced), u1,
            [.authenticated, .reserveOk, .externalCall]⟩

/-- Errors surfaced by the analyze route: 400 for missing inputs, 500 for
a wrapped analyzer failure. -/
inductive AnalyzeError
  | badRequest (detail : String)
  | serverError
  deriving DecidableEq, Repr

/-- Outcome of one ATS-analysis request: the error (if any) and the
recorded event trace. -/
structure AnalyzeResult where
  error : Option AnalyzeError
  events : List Event
  deriving DecidableEq, Repr

/-- The analyze_ats route (src/routes/resume_routes.py) composed with
ResumeController.analyze_ats_compatibility, over the resume_text and
job_description form inputs (the PDF-extraction and URL-scraping branches
delegate to external collaborators and do not change the control flow
modelled here).  The route declares NO authentication dependency and
never touches the CreditManager; the Groq generator is invoked directly
once both inputs are present. -/
def analyze_ats (resume_text_provided job_description_provided : Bool)
    (gen : Option String) : AnalyzeResult :=
  if resume_text_provided = false then
    ⟨some (.badRequest "Either resume_file or resume_text must be provided"), []⟩
  else if job_description_provided = false then
    ⟨some (.badRequest "Either job_description or job_url must be provided"), []⟩
  else
    match gen with
    | none => ⟨some .serverError, [.externalCall]⟩
    | some _ => ⟨none, [.externalCall]⟩

/-- Claim C3: a Trial user with 10 credits sends valid content and the
Groq generator raises.  The code surfaces the wrapped 500 but performs NO
refund: the final counters are (9, 1), not the pre-reserve (10, 0), and no
refund event occurs — the code contradicts the claimed refund-on-failure
behaviour (and the route's own dead `except Exception` refund arm). -/
theorem C3_generator_failure_keeps_charge :
    (enhance_section true true ⟨1, SubscriptionType.trial, 10, 0, [], 0⟩
      "summary" "some text" none).error = some EnhanceError.enhancementFailed ∧
    (enhance_section true true ⟨1, SubscriptionType.trial, 10, 0, [], 0⟩
      "summary" "some text" none).user =
      ⟨1, SubscriptionType.trial, 9, 1, [], 0⟩ ∧
    Event.refundCalled ∉
      (enhance_section true true ⟨1, SubscriptionType.trial, 10, 0, [], 0⟩
        "summary" "some text" none).events := by
  decide

/-- Claim C4 counterexample: the ATS-analysis route reaches the external
generator with no authentication and no reservation at all — its trace is
exactly one external call, with neither an authenticated nor a reserveOk
event, refuting the claim for the analyze operation. -/
theorem C4_counterexample :
    (analyze_ats true true (some "analysis")).events = [Event.externalCall] ∧
    Event.authenticated ∉ (analyze_ats true true (some "analysis")).events ∧
    Event.reserveOk ∉ (analyze_ats true true (some "analysis")).events ∧
    (analyze_ats true true (some "analysis")).error = none := by
  decide

/-- Claim C4 (amended): for the enhance operation the external generator
is invoked only after authentication and a successful reservation (the
trace is then exactly authenticated, reserveOk, externalCall); and when
the reservation fails with InsufficientCredits the request ends in that
payment-required error with no external call.  The ATS-analysis route, by
contrast, calls the generator with no authentication and no reservation
(see the counterexample). -/
theorem C4_enhance_gating (tokenValid userFound : Bool) (u : User)
    (section_name content : String) (gen : Option String) :
    (Event.externalCall ∈
        (enhance_section tokenValid userFound u section_name content gen).events →
      tokenValid = true ∧ userFound = true ∧
      (enhance_section tokenValid userFound u section_name content gen).events =
        [Event.authenticated, Event.reserveOk, Event.externalCall]) ∧
    (∀ info, (check_and_use_credits u "enhance").1 =
        some (CreditError.insufficientCredits info) →
      tokenValid = true → userFound = true →
      (enhance_section tokenValid userFound u section_name content gen).error =
        some (EnhanceError.creditError (CreditError.insufficientCredits info)) ∧
      Event.externalCall ∉
        (enhance_section tokenValid userFound u section_name content gen).events) := by
  cases tokenValid with
  | false => simp [enhance_section]
  | true =>
    cases userFound with
    | false => simp [enhance_section]
    | true =>
      rcases hc : check_and_use_credits u "enhance" with ⟨e, u1⟩
      cases e with
      | some err =>
        constructor
        · intro hmem
          simp [enhance_section, hc] at hmem
        · intro info hinfo
          simp at hinfo
          subst hinfo
          simp [enhance_section, hc]
      | none =>
        constructor
        · intro hmem
          by_cases hempty : content = "" || pyStrip content = ""
          · simp [enhance_section, hc, hempty] at hmem
          · cases gen <;> simp [enhance_section, hc, hempty]
        · intro info hinfo
          simp at hinfo

/-- Claim C4 (amended), witnessed on a Trial user with an empty balance:
the enhance request ends with the 402 InsufficientCredits error carrying
(0, 1, trial) and the generator is never called. -/
theorem C4_enhance_gating_witness :
    (enhance_section true true ⟨1, SubscriptionType.trial, 0, 5, [], 0⟩
      "summary" "some text" (some "enhanced")).error =
      some (EnhanceError.creditError (CreditError.insufficientCredits
        ⟨0, 1, SubscriptionType.trial⟩)) ∧
    Event.externalCall ∉
      (enhance_section true true ⟨1, SubscriptionType.trial, 0, 5, [], 0⟩
        "summary" "some text" (some "enhanced")).events := by
  exact (C4_enhance_gating true true ⟨1, SubscriptionType.trial, 0, 5, [], 0⟩
    "summary" "some text" (some "enhanced")).2
    ⟨0, 1, SubscriptionType.trial⟩ (by decide) rfl rfl

/-- Claim C6 counterexample: for a PRO user with `credits_used = 50` and
empty content, the reservation succeeds (usage becomes 51) and the refund
IS called — but `refund_credits` is a no-op for PRO, so the request ends
with `credits_used = 51`, not the pre-reserve 50, refuting the claim that
the final counters always equal the pre-reserve values. -/
theorem C6_counterexample :
    (enhance_section true true ⟨1, SubscriptionType.pro, 0, 50, [], 0⟩
      "summary" "" (some "enhanced")).error = some EnhanceError.contentRequired ∧
    Event.refundCalled ∈
      (enhance_section true true ⟨1, SubscriptionType.pro, 0, 50, [], 0⟩
        "summary" "" (some "enhanced")).events ∧
    ¬ ((enhance_section true true ⟨1, SubscriptionType.pro, 0, 50, [], 0⟩
        "summary" "" (some "enhanced")).user.credits_used = 50) := by
  decide

/-- Claim C6 (amended): for a non-unlimited account with a non-negative
usage counter and a balance covering the cost, an enhance request whose
content strips to empty ends in the 400 validation error with the refund
called, and both counters equal their pre-reserve values.  (For a PRO
account the refund is still called but is a no-op, so `credits_used`
stays inflated by the cost — see the counterexample.) -/
theorem C6_empty_content_refund (u : User) (section_name content : String)
    (gen : Option String)
    (htier : u.subscription_type ≠ SubscriptionType.pro)
    (hused : 0 ≤ u.credits_used)
    (hbal : creditCost "enhance" ≤ u.credits_remaining)
    (hempty : pyStrip content = "") :
    (enhance_section true true u section_name content gen).error =
      some EnhanceError.contentRequired ∧
    (enhance_section true true u section_name content gen).user.credits_remaining =
      u.credits_remaining ∧
    (enhance_section true true u section_name content gen).user.credits_used =
      u.credits_used ∧
    Event.refundCalled ∈
      (enhance_section true true u section_name content gen).events := by
  simp [enhance_section, check_and_use_credits, User.has_credits, User.use_credit,
    htier, hbal, hempty, refund_credits, User.add_credits]
  omega

/-- Claim C6 (amended), witnessed on a Trial user with (10, 0) and
whitespace-only content: the request ends in the validation error with
final counters (10, 0). -/
theorem C6_empty_content_refund_witness :
    (enhance_section true true ⟨1, SubscriptionType.trial, 10, 0, [], 0⟩
      "summary" "   " (some "enhanced")).error = some EnhanceError.contentRequired ∧
    (enhance_section true true ⟨1, SubscriptionType.trial, 10, 0, [], 0⟩
      "summary" "   " (some "enhanced")).user.credits_remaining = 10 ∧
    (enhance_section true true ⟨1, SubscriptionType.trial, 10, 0, [], 0⟩
      "summary" "   " (some "enhanced")).user.credits_used = 0 ∧
    Event.refundCalled ∈
      (enhance_section true true ⟨1, SubscriptionType.trial, 10, 0, [], 0⟩
        "summary" "   " (some "enhanced")).events := by
  exact C6_empty_content_refund ⟨1, SubscriptionType.trial, 10, 0, [], 0⟩
    "summary" "   " (some "enhanced") (by decide) (by decide) (by decide) (by decide)

/-- The fields of the Resume document relevant to the ownership claims
(src/database/models.py): its id, the owning user's id, the title, and the
opaque structured content. -/
structure ResumeDoc where
  id : Nat
  user_id : Nat
  title : Option String
  json_data : String
  deriving DecidableEq, Repr

/-- `Resume.find_one(Resume.id == resume_id, Resume.user_id == caller)`:
the single query used by the get, update and delete routes, filtering on
the id AND the owner at once. -/
def find_one_owned (store : List ResumeDoc) (resume_id caller_id : Nat) :
    Option ResumeDoc :=
  store.find? (fun r => r.id == resume_id && r.user_id == caller_id)

/-- Errors surfaced by the my-resumes-id routes: the shared 404 and the
blanket 500. -/
inductive ResumeError
  | notFound (detail : String)
  | serverError (detail : String)
  deriving DecidableEq, Repr

/-- User.remove_resume: drop the id from the list (first occurrence, as
Python's list.remove) and recompute the count, only when present. -/
def User.remove_resume (u : User) (resume_id : Nat) : User :=
  if resume_id ∈ u.resume_ids then
    let ids := u.resume_ids.erase resume_id
    { u with resume_ids := ids, resume_count := ids.length }
  else
    u

/-- get_my_resume_by_id (src/routes/resume_routes.py): one ownership-aware
query; a miss — absent id or foreign owner alike — raises the single 404
with detail "Resume not found or access denied". -/
def get_my_resume_by_id (store : List ResumeDoc) (caller_id resume_id : Nat) :
    Except ResumeError ResumeDoc :=
  match find_one_owned store resume_id caller_id with
  | none => .error (.notFound "Resume not found or access denied")
  | some r => .ok r

/-- update_my_resume (src/routes/resume_routes.py): the same ownership
query and 404.  When the query hits, the handler reads
`request.yaml_content`, a field SaveResumeRequest does not declare, so
Python raises AttributeError before `resume.save()` runs; the blanket
handler turns it into the 500 and the store is never written. -/
def update_my_resume (store : List ResumeDoc) (caller_id resume_id : Nat)
    (_title : Option String) (_json_data : String) :
    Except ResumeError ResumeDoc × List ResumeDoc :=
  match find_one_owned store resume_id caller_id with
  | none => (.error (.notFound "Resume not found or access denied"), store)
  | some _ => (.error (.serverError "Error updating resume"), store)

/-- delete_my_resume (src/routes/resume_routes.py): the same ownership
query and 404; on a hit, the caller's own user record (if found) drops the
resume id and the resume document is deleted. -/
def delete_my_resume (store : List ResumeDoc) (users : List User)
    (caller_id resume_id : Nat) :
    Except ResumeError String × List ResumeDoc × List User :=
  match find_one_owned store resume_id caller_id with
  | none => (.error (.notFound "Resume not found or access denied"), store, users)
  | some r =>
    let users' :=
      match users.find? (fun x => x.id == caller_id) with
      | some caller =>
        users.map (fun x => if x.id == caller_id then caller.remove_resume r.id else x)
      | none => users
    (.ok "Resume deleted successfully",
     store.filter (fun x => !(x.id == r.id)), users')

/-- Claim C8: for a resume id present in the store and owned by account A
(ids unique, so every record with that id belongs to A), any caller B ≠ A
gets the same NotFound error from get, update and delete as for an id that
is absent altogether; the non-owner delete changes neither the store nor
any user record, so A's resume set and count are untouched. -/
theorem C8_ownership_not_found (store : List ResumeDoc) (users : List User)
    (ownerA callerB resume_id : Nat) (r0 : ResumeDoc)
    (_hr0 : r0 ∈ store) (_hr0id : r0.id = resume_id) (_hr0own : r0.user_id = ownerA)
    (howned : ∀ r ∈ store, r.id = resume_id → r.user_id = ownerA)
    (hne : callerB ≠ ownerA) :
    get_my_resume_by_id store callerB resume_id =
      .error (.notFound "Resume not found or access denied") ∧
    update_my_resume store callerB resume_id none "doc" =
      (.error (.notFound "Resume not found or access denied"), store) ∧
    delete_my_resume store users callerB resume_id =
      (.error (.notFound "Resume not found or access denied"), store, users) ∧
    (∀ other_id, (∀ r ∈ store, r.id ≠ other_id) →
      get_my_resume_by_id store callerB other_id =
        get_my_resume_by_id store callerB resume_id) := by
  have hnone : find_one_owned store resume_id callerB = none := by
    unfold find_one_owned
    rw [List.find?_eq_none]
    intro r hr
    simp only [Bool.and_eq_true, beq_iff_eq, not_and]
    intro hid huid
    have h2 := howned r hr hid
    omega
  refine ⟨?_, ?_, ?_, ?_⟩
  · simp [get_my_resume_by_id, hnone]
  · simp [update_my_resume, hnone]
  · simp [delete_my_resume, hnone]
  · intro other_id hother
    have h2 : find_one_owned store other_id callerB = none := by
      unfold find_one_owned
      rw [List.find?_eq_none]
      intro r hr
      simp only [Bool.and_eq_true, beq_iff_eq, not_and]
      intro hid _
      exact absurd hid (hother r hr)
    simp [get_my_resume_by_id, hnone, h2]

/-- Claim C8, witnessed on a two-user store: resume 7 belongs to user 1;
caller 2 gets the same NotFound from get and delete as for the absent id
99, and the delete leaves store and users unchanged. -/
theorem C8_ownership_not_found_witness :
    get_my_resume_by_id [⟨7, 1, none, "doc"⟩] 2 7 =
      .error (.notFound "Resume not found or access denied") ∧
    delete_my_resume [⟨7, 1, none, "doc"⟩]
      [⟨1, SubscriptionType.trial, 10, 0, [7], 1⟩,
       ⟨2, SubscriptionType.trial, 10, 0, [], 0⟩] 2 7 =
      (.error (.notFound "Resume not found or access denied"),
       [⟨7, 1, none, "doc"⟩],
       [⟨1, SubscriptionType.trial, 10, 0, [7], 1⟩,
        ⟨2, SubscriptionType.trial, 10, 0, [], 0⟩]) ∧
    get_my_resume_by_id [⟨7, 1, none, "doc"⟩] 2 99 =
      get_my_resume_by_id [⟨7, 1, none, "doc"⟩] 2 7 := by
  have h := C8_ownership_not_found [⟨7, 1, none, "doc"⟩]
    [⟨1, SubscriptionType.trial, 10, 0, [7], 1⟩,
     ⟨2, SubscriptionType.trial, 10, 0, [], 0⟩]
    1 2 7 ⟨7, 1, none, "doc"⟩ (by decide) rfl rfl
    (by intro r hr hid; simp only [List.mem_singleton] at hr; subst hr; rfl)
    (by decide)
  exact ⟨h.1, h.2.2.1, h.2.2.2 99
    (by intro r hr; simp only [List.mem_singleton] at hr; subst hr; decide)⟩

/-- A token as produced by generate_jwt_token: the claims dict
`{user_id, email, exp, iat, type}` plus the key it was signed with
(modelling the HS256 signature).  Times are epoch seconds. -/
structure TokenPayload where
  user_id : String
  email : String
  exp : Int
  iat : Int
  type : String
  signedWith : String
  deriving DecidableEq, Repr

/-- generate_jwt_token (src/services/auth_helper.py): an access token
expiring in 1 hour and a refresh token expiring in 30 days, both issued
at `now` and signed with the secret. -/
def generate_jwt_token (secret_key user_id email : String) (now : Int) :
    TokenPayload × TokenPayload :=
  (⟨user_id, email, now + 3600, now, "access", secret_key⟩,
   ⟨user_id, email, now + 30 * 24 * 3600, now, "refresh", secret_key⟩)

/-- Decode failures of the PyJWT library. -/
inductive JwtError
  | expiredSignature
  | invalidToken
  deriving DecidableEq, Repr

/-- `jwt.decode(token, key, algorithms=["HS256"])`: reject a token signed
with a different key, then reject one whose `exp` lies strictly in the
past; otherwise return the claims. -/
def jwt_decode (token : TokenPayload) (secret_key : String) (now : Int) :
    Except JwtError TokenPayload :=
  if token.signedWith ≠ secret_key then
    .error .invalidToken
  else if token.exp < now then
    .error .expiredSignature
  else
    .ok token

/-- The 401 raised by the auth layer, with its detail string. -/
inductive AuthError
  | unauthorized (detail : String)
  deriving DecidableEq, Repr

/-- verify_jwt_token (src/middleware/auth.py): decode, then require
`type == "access"`.  The HTTPException raised for a wrong token kind is
itself an Exception, so the function's blanket `except Exception` arm
re-wraps it and the caller sees 401 "Authentication failed". -/
def verify_jwt_token (token : TokenPayload) (secret_key : String) (now : Int) :
    Except AuthError TokenPayload :=
  match jwt_decode token secret_key now with
  | .error .expiredSignature => .error (.unauthorized "Token expired")
  | .error .invalidToken => .error (.unauthorized "Invalid token")
  | .ok payload =>
    if payload.type ≠ "access" then
      .error (.unauthorized "Authentication failed")
    else
      .ok payload

/-- The refresh_token route (src/routes/auth_routes.py): decode with the
same secret, require `type == "refresh"`, and mint a fresh access token
from the refresh token's identity claims with no further authentication. -/
def refresh_token (token : TokenPayload) (secret_key : String) (now : Int) :
    Except AuthError TokenPayload :=
  match jwt_decode token secret_key now with
  | .error .expiredSignature => .error (.unauthorized "Refresh token expired")
  | .error .invalidToken => .error (.unauthorized "Invalid refresh token")
  | .ok payload =>
    if payload.type ≠ "refresh" then
      .error (.unauthorized "Invalid token type")
    else
      .ok (generate_jwt_token secret_key payload.user_id payload.email now).1

/-- jwt_decode only ever returns the token it was given. -/
theorem jwt_decode_ok_eq (token : TokenPayload) (secret_key : String)
    (now : Int) (p : TokenPayload) :
    jwt_decode token secret_key now = .ok p → p = token := by
  intro h
  unfold jwt_decode at h
  split_ifs at h
  simp_all

/-- Claim C9: the issued access token carries exp = iat + 1 hour and kind
"access", the refresh token exp = iat + 30 days and kind "refresh";
verified tokens always have kind "access" and any other kind yields a 401;
the refresh operation rejects any non-"refresh" kind and exchanges a valid
non-expired refresh token for a new access token built from the token's
own identity claims. -/
theorem C9_token_kinds_and_lifetimes (secret_key user_id email : String)
    (now : Int) :
    ((generate_jwt_token secret_key user_id email now).1.exp =
        (generate_jwt_token secret_key user_id email now).1.iat + 3600 ∧
      (generate_jwt_token secret_key user_id email now).1.type = "access") ∧
    ((generate_jwt_token secret_key user_id email now).2.exp =
        (generate_jwt_token secret_key user_id email now).2.iat + 30 * 24 * 3600 ∧
      (generate_jwt_token secret_key user_id email now).2.type = "refresh") ∧
    (∀ token now2 p, verify_jwt_token token secret_key now2 = .ok p →
      p.type = "access") ∧
    (∀ token now2, token.type ≠ "access" →
      ∃ d, verify_jwt_token token secret_key now2 = .error (.unauthorized d)) ∧
    (∀ token now2, token.type ≠ "refresh" →
      ∃ d, refresh_token token secret_key now2 = .error (.unauthorized d)) ∧
    (∀ token now2, token.signedWith = secret_key → token.type = "refresh" →
      ¬ token.exp < now2 →
      refresh_token token secret_key now2 =
        .ok ⟨token.user_id, token.email, now2 + 3600, now2, "access",
             secret_key⟩) := by
  refine ⟨⟨rfl, rfl⟩, ⟨rfl, rfl⟩, ?_, ?_, ?_, ?_⟩
  · intro token now2 p h
    unfold verify_jwt_token at h
    cases hd : jwt_decode token secret_key now2 with
    | error e => rw [hd] at h; cases e <;> simp at h
    | ok payload =>
      rw [hd] at h
      by_cases ht : payload.type = "access"
      · simp [ht] at h
        rw [← h]
        exact ht
      · simp [ht] at h
  · intro token now2 ht
    unfold verify_jwt_token
    cases hd : jwt_decode token secret_key now2 with
    | error e => cases e <;> simp
    | ok payload =>
      have hpt := jwt_decode_ok_eq token secret_key now2 payload hd
      subst hpt
      simp [ht]
  · intro token now2 ht
    unfold refresh_token
    cases hd : jwt_decode token secret_key now2 with
    | error e => cases e <;> simp
    | ok payload =>
      have hpt := jwt_decode_ok_eq token secret_key now2 payload hd
      subst hpt
      simp [ht]
  · intro token now2 hsig htype hexp
    unfold refresh_token jwt_decode
    simp [hsig, hexp, htype, generate_jwt_token]

/-- Claim C9, witnessed on concrete tokens with secret "k": the access
token issued at 1000 expires at 4600 and has kind "access"; presenting the
refresh token to the protected-operation verifier yields a 401; the
refresh endpoint exchanges the still-valid refresh token at time 2000 for
an access token expiring at 5600. -/
theorem C9_token_kinds_and_lifetimes_witness :
    (generate_jwt_token "k" "u7" "a@b" 1000).1.type = "access" ∧
    (generate_jwt_token "k" "u7" "a@b" 1000).1.exp = 4600 ∧
    (∃ d, verify_jwt_token ⟨"u7", "a@b", 100000, 1000, "refresh", "k"⟩ "k" 2000 =
      .error (.unauthorized d)) ∧
    refresh_token ⟨"u7", "a@b", 100000, 1000, "refresh", "k"⟩ "k" 2000 =
      .ok ⟨"u7", "a@b", 5600, 2000, "access", "k"⟩ := by
  have h := C9_token_kinds_and_lifetimes "k" "u7" "a@b" 1000
  refine ⟨h.1.2, ?_, ?_, ?_⟩
  · rw [h.1.1]
    decide
  · exact h.2.2.2.1 ⟨"u7", "a@b", 100000, 1000, "refresh", "k"⟩ 2000 (by decide)
  · simpa using h.2.2.2.2.2 ⟨"u7", "a@b", 100000, 1000, "refresh", "k"⟩ 2000
      rfl rfl (by decide)

/-- One lowercase hex digit, as Python's hex encodings produce. -/
def hexDigit (n : Nat) : Char :=
  "0123456789abcdef".toList.getD n '0'

/-- One byte as two lowercase hex characters. -/
def byteToHex (b : Nat) : String :=
  String.mk [hexDigit (b / 16 % 16), hexDigit (b % 16)]

/-- A byte string as lowercase hex — both `secrets.token_hex` (on the
fresh salt bytes) and `bytes.hex()` (on the PBKDF2 digest). -/
def bytesHex : List Nat → String
  | [] => ""
  | b :: bs => byteToHex b ++ bytesHex bs

/-- Python string slicing `s[:n]`. -/
def pySliceTo (s : String) (n : Nat) : String :=
  String.mk (s.toList.take n)

/-- Python string slicing `s[n:]`. -/
def pySliceFrom (s : String) (n : Nat) : String :=
  String.mk (s.toList.drop n)

/-- hash_password (src/services/auth_helper.py): hex-encode the 32 fresh
salt bytes (64 hex characters), run PBKDF2-HMAC-SHA256 over the password
and that salt for 100000 iterations, and store salt ++ digest-hex.
`pbkdf2` stands for `hashlib.pbkdf2_hmac('sha256', ...)`, an external
deterministic primitive returning the digest bytes. -/
def hash_password (pbkdf2 : String → String → Nat → List Nat)
    (saltBytes : List Nat) (password : String) : String :=
  let salt := bytesHex saltBytes
  salt ++ bytesHex (pbkdf2 password salt 100000)

/-- verify_password (src/services/auth_helper.py): split the stored string
at position 64 into salt and digest, recompute the digest with the same
salt and iteration count, and compare. -/
def verify_password (pbkdf2 : String → String → Nat → List Nat)
    (password stored_password : String) : Bool :=
  let salt := pySliceTo stored_password 64
  let stored_hash := pySliceFrom stored_password 64
  bytesHex (pbkdf2 password salt 100000) == stored_hash

/-- Appending strings appends their character lists. -/
theorem string_toList_append (s t : String) :
    (s ++ t).toList = s.toList ++ t.toList := by
  cases s
  cases t
  rfl

/-- Hex encoding yields two characters per byte. -/
theorem bytesHex_toList_length (bs : List Nat) :
    (bytesHex bs).toList.length = 2 * bs.length := by
  induction bs with
  | nil => rfl
  | cons b rest ih =>
    show (byteToHex b ++ bytesHex rest).toList.length = 2 * (rest.length + 1)
    rw [string_toList_append, List.length_append, ih]
    show 2 + 2 * rest.length = 2 * (rest.length + 1)
    ring

/-- Slicing `s ++ t` at the length of `s` recovers `s` and `t`. -/
theorem pySlice_append (s t : String) (n : Nat) (h : s.toList.length = n) :
    pySliceTo (s ++ t) n = s ∧ pySliceFrom (s ++ t) n = t := by
  subst h
  unfold pySliceTo pySliceFrom
  rw [string_toList_append, List.take_left, List.drop_left]
  cases s
  cases t
  exact ⟨rfl, rfl⟩

/-- Claim C10: hashing then verifying round-trips — for any password, any
32-byte generated salt and any deterministic digest primitive,
`verify_password password (hash_password password)` returns true, because
the stored string starts with the 64-hex-character salt, the split at 64
recovers exactly that salt, and the digest is recomputed with the same
salt and iteration count. -/
theorem C10_hash_verify_roundtrip (pbkdf2 : String → String → Nat → List Nat)
    (saltBytes : List Nat) (password : String)
    (hsalt : saltBytes.length = 32) :
    verify_password pbkdf2 password (hash_password pbkdf2 saltBytes password) =
      true := by
  unfold hash_password verify_password
  have hlen : (bytesHex saltBytes).toList.length = 64 := by
    rw [bytesHex_toList_length, hsalt]
  have hsl := pySlice_append (bytesHex saltBytes)
    (bytesHex (pbkdf2 password (bytesHex saltBytes) 100000)) 64 hlen
  simp only [hsl.1, hsl.2]
  exact beq_self_eq_true _

/-- Claim C10, witnessed on a concrete digest primitive, the all-sevens
32-byte salt and the password "hunter2". -/
theorem C10_hash_verify_roundtrip_witness :
    verify_password (fun _ _ _ => [0, 171]) "hunter2"
      (hash_password (fun _ _ _ => [0, 171]) (List.replicate 32 7) "hunter2") =
      true := by
  exact C10_hash_verify_roundtrip (fun _ _ _ => [0, 171]) (List.replicate 32 7)
    "hunter2" (by simp)
